import Mathlib

/-!
Formal model of the playback engine in `src/playback.js` of the
chitragupta repository (class `InteractionPlayback`), together with
theorems about its element resolution, action dispatch, timing and
control flow.

Modelling conventions:
* JavaScript values that may be `undefined` are modelled as `Option`.
* A JavaScript template literal interpolating `undefined` produces the
  string "undefined"; `jsStr` models that coercion.
* The live page is modelled as a query oracle `Page.query` (the result of
  `page.$` / `document.querySelector`), a per-selector flag `Page.actOk`
  (whether the browser-level action calls on that selector succeed
  without throwing; a throw inside a candidate loop body is modelled as
  the whole candidate failing, matching the `catch { continue }` shape of
  the source), and the current URL.  `page.evaluate` of a function that
  guards its own body with `if (element)` cannot throw on a missing
  element and is modelled as total.
* Timestamps are integers; delay arithmetic is over `ℚ`.
-/

namespace Playback

/-- Result of coercing an optional JavaScript string into a template
literal: `undefined` interpolates as the literal text "undefined". -/
def jsStr : Option String → String
  | some s => s
  | none => "undefined"

/-- Model of `Array.prototype.filter(Boolean)` over a list of optional
strings: `undefined` and the empty string are falsy and dropped, every
other string is kept. -/
def filterBoolean (l : List (Option String)) : List String :=
  l.filterMap (fun o =>
    match o with
    | none => none
    | some s => if s = "" then none else some s)

/-- One recorded interaction (`InteractionRecord`); fields other than
`type` are optional, matching the untyped JSON records. -/
structure Interaction where
  type : String
  timestamp : Option Int
  url : Option String
  selector : Option String
  id : Option String
  className : Option String
  name : Option String
  tagName : Option String
  value : Option String
  checked : Option Bool
  coordinates : Option (Int × Int)
  deriving DecidableEq

/-- A loaded recording file (`this.recording`). -/
structure Recording where
  sessionId : String
  startTime : Int
  endTime : Int
  totalInteractions : Int
  interactions : List Interaction
  deriving DecidableEq

/-- A live DOM element as observed by the dispatcher. -/
structure Elem where
  tagName : String
  checked : Bool
  value : String
  deriving DecidableEq

/-- The live page capability.  `query s` is the element returned by
`page.$(s)` / `document.querySelector(s)` (none when no element
matches); `actOk s` tells whether the browser-level action calls
(`page.click`, `page.focus`/keyboard/`page.type`) against selector `s`
complete without throwing; `url` is `page.url()`. -/
structure Page where
  query : String → Option Elem
  actOk : String → Bool
  url : String

/-- Browser-level effects performed by the dispatcher. -/
inductive Action where
  | clickSel : String → Action
  | clickCoord : Int → Int → Action
  | focus : String → Action
  | keySelectAll : Action
  | keyBackspace : Action
  | typeText : String → String → Action
  | selectOption : String → String → Action
  | setValueDispatchChange : String → String → Action
  | submitForm : String → Action
  | setRange : String → String → Action
  | navigate : String → Action
  deriving DecidableEq

/-- Output of one handler: the browser actions it performed and the
diagnostic messages it logged. -/
structure HOut where
  actions : List Action
  logs : List String
  deriving DecidableEq

/-- ASCII lowercasing of a tag name, as `toLowerCase` performs on the
uppercase DOM `tagName`. -/
def jsToLower (s : String) : String := String.mk (s.data.map Char.toLower)

/-- Candidate selector list built by `playClick` (playback.js 144-149):
`[interaction.selector, ` then `#` interpolating `id`, then `.`
interpolating the dot-join of `className`, then the lowercased
`tagName` `].filter(Boolean)`.  Note that the `#` and `.` entries are
template literals, so an absent `id`/`className` interpolates as the
text "undefined" and survives `filter(Boolean)`; only the `tagName`
entry becomes a genuine `undefined` when absent. -/
def clickSelectors (i : Interaction) : List String :=
  filterBoolean
    [ i.selector,
      some ("#" ++ jsStr i.id),
      some ("." ++ (match i.className with
        | some c => String.intercalate "." (c.splitOn " ")
        | none => "undefined")),
      i.tagName.map jsToLower ]

/-- Candidate selector list built identically by `playInput` (187-191),
`playChange` (228-232) and `playCheckbox` (266-270):
`[interaction.selector, ` hash-id `, [name="..."]].filter(Boolean)`. -/
def fieldSelectors (i : Interaction) : List String :=
  filterBoolean
    [ i.selector,
      some ("#" ++ jsStr i.id),
      some ("[name=\"" ++ jsStr i.name ++ "\"]") ]

/-- Loop body of `playClick` (152-165): for each candidate, if
`page.$` finds an element, click it and stop; a throwing click falls
through to the next candidate. -/
def tryClickCandidates (p : Page) : List String → Option String
  | [] => none
  | s :: rest =>
    match p.query s with
    | some _ => if p.actOk s then some s else tryClickCandidates p rest
    | none => tryClickCandidates p rest

/-- Typing step of `playInput` (207-211): `if (interaction.value)` is
falsy for an absent value and for the empty string, in which case
nothing is typed. -/
def typeActions (s : String) (v : Option String) : List Action :=
  match v with
  | some t => if t = "" then [] else [Action.typeText s t]
  | none => []

/-- Loop body of `playInput` (194-217): skip candidates with no
element; otherwise focus, select-all, delete, then type the value
(if truthy); a throw anywhere in that block falls through to the next
candidate. -/
def tryInputCandidates (p : Page) (v : Option String) : List String → Option (List Action)
  | [] => none
  | s :: rest =>
    match p.query s with
    | none => tryInputCandidates p v rest
    | some _ =>
      if p.actOk s then
        some ([Action.focus s, Action.keySelectAll, Action.keyBackspace] ++ typeActions s v)
      else tryInputCandidates p v rest

/-- Loop body of `playChange` (235-255).  When the record carries
`tagName === 'SELECT'`, `page.select` is used, which throws (falling
through to the next candidate) unless the selector matches a live
select element.  Otherwise `page.evaluate` sets `.value` and dispatches
a change event only when an element matches, and resolves either way,
so the first candidate always succeeds. -/
def tryChangeCandidates (p : Page) (i : Interaction) : List String → Option (List Action)
  | [] => none
  | s :: rest =>
    if i.tagName = some "SELECT" then
      match p.query s with
      | some e =>
        if e.tagName = "SELECT" then some [Action.selectOption s (jsStr i.value)]
        else tryChangeCandidates p i rest
      | none => tryChangeCandidates p i rest
    else
      some (if (p.query s).isSome then [Action.setValueDispatchChange s (jsStr i.value)] else [])

/-- Desired checked state in `playCheckbox` (276):
`interaction.checked || interaction.value === 'true'`. -/
def shouldBeChecked (i : Interaction) : Bool :=
  i.checked.getD false || (i.value == some "true")

/-- Loop body of `playCheckbox` (273-287): `$eval` throws when no
element matches (next candidate); with an element, click only when the
current checked state differs from the desired one (a throwing click
falls through to the next candidate), otherwise perform nothing. -/
def tryCheckboxCandidates (p : Page) (want : Bool) : List String → Option (List Action)
  | [] => none
  | s :: rest =>
    match p.query s with
    | none => tryCheckboxCandidates p want rest
    | some e =>
      if e.checked = want then some []
      else if p.actOk s then some [Action.clickSel s]
      else tryCheckboxCandidates p want rest

/-- Model of `playClick` (139-180): try the candidate selectors; on
failure fall back to a coordinate click when the record carries
coordinates, else log that the element could not be clicked. -/
def playClick (p : Page) (i : Interaction) : HOut :=
  match tryClickCandidates p (clickSelectors i) with
  | some s => ⟨[Action.clickSel s], []⟩
  | none =>
    match i.coordinates with
    | some (x, y) => ⟨[Action.clickCoord x y], []⟩
    | none => ⟨[], ["Could not click element: " ++ jsStr i.selector]⟩

/-- Model of `playInput` (183-222): try the candidate selectors; on
failure log that the element could not be typed in (there is no
coordinate fallback on this path). -/
def playInput (p : Page) (i : Interaction) : HOut :=
  match tryInputCandidates p i.value (fieldSelectors i) with
  | some acts => ⟨acts, []⟩
  | none => ⟨[], ["Could not type in element: " ++ jsStr i.selector]⟩

/-- Model of `playChange` (225-260): throws only when every candidate
fails, which can happen only on the `SELECT` path. -/
def playChange (p : Page) (i : Interaction) : Except String HOut :=
  match tryChangeCandidates p i (fieldSelectors i) with
  | some acts => Except.ok ⟨acts, []⟩
  | none => Except.error ("Could not change element: " ++ jsStr i.selector)

/-- Model of `playCheckbox` (263-292): throws when every candidate
fails. -/
def playCheckbox (p : Page) (i : Interaction) : Except String HOut :=
  match tryCheckboxCandidates p (shouldBeChecked i) (fieldSelectors i) with
  | some acts => Except.ok ⟨acts, []⟩
  | none => Except.error ("Could not toggle checkbox: " ++ jsStr i.selector)

/-- Model of `playSubmit` (314-328): a single `page.evaluate` that
submits only when `interaction.selector` matches an element whose tag
is `FORM`, and resolves (no throw) whether or not that happened. -/
def playSubmit (p : Page) (i : Interaction) : Except String HOut :=
  Except.ok ⟨(match p.query (jsStr i.selector) with
    | some e => if e.tagName = "FORM" then [Action.submitForm (jsStr i.selector)] else []
    | none => []), []⟩

/-- Model of `playRange` (295-311): a single `page.evaluate` that sets
the value and dispatches input and change events when an element
matches, resolving either way. -/
def playRange (p : Page) (i : Interaction) : Except String HOut :=
  Except.ok ⟨(if (p.query (jsStr i.selector)).isSome
    then [Action.setRange (jsStr i.selector) (jsStr i.value)] else []), []⟩

/-- Model of `playNavigation` (125-136): navigate when the record has a
truthy url different from the current one; a navigation failure is
caught and logged inside the handler. -/
def playNavigation (p : Page) (i : Interaction) : HOut :=
  match i.url with
  | some u => if u ≠ "" ∧ p.url ≠ u then ⟨[Action.navigate u], []⟩ else ⟨[], []⟩
  | none => ⟨[], []⟩

/-- The `switch (interaction.type)` of `playInteraction` (90-117). -/
def dispatch (p : Page) (i : Interaction) : Except String HOut :=
  match i.type with
  | "navigation" => Except.ok (playNavigation p i)
  | "click" => Except.ok (playClick p i)
  | "input" | "text" | "search" => Except.ok (playInput p i)
  | "change" | "select-one" => playChange p i
  | "submit" => playSubmit p i
  | "checkbox" => playCheckbox p i
  | "range" => playRange p i
  | other => Except.ok ⟨[], ["Skipping unsupported interaction type: " ++ other]⟩

/-- How one event ended: handled (with its performed actions and logs),
or failed with the error caught and logged by the per-event handler. -/
inductive EventResult where
  | handled : List Action → List String → EventResult
  | failedLogged : String → EventResult
  deriving DecidableEq

/-- Outcome of `playInteraction` for the event at a given index. -/
structure EventOutcome where
  index : Nat
  result : EventResult
  deriving DecidableEq

/-- Model of `playInteraction` (64-122): the whole body is wrapped in a
try/catch, so any failure is converted into a logged outcome carrying
the event index; before the dispatch switch, the handler proactively
navigates when the current URL differs from the truthy record URL
(79-88), tolerating navigation failure. -/
def playInteraction (p : Page) (i : Interaction) (index : Nat) : EventOutcome :=
  let preNav : List Action :=
    match i.url with
    | some u => if u ≠ "" ∧ p.url ≠ u then [Action.navigate u] else []
    | none => []
  match dispatch p i with
  | Except.ok out => ⟨index, EventResult.handled (preNav ++ out.actions) out.logs⟩
  | Except.error m => ⟨index, EventResult.failedLogged m⟩

/-- Model of `calculateDelay` (58-61), with the playback speed made an
explicit first argument: `Math.max(realDelay / speed, 50)`. -/
def calculateDelay (speed previousTimestamp currentTimestamp : ℚ) : ℚ :=
  max ((currentTimestamp - previousTimestamp) / speed) 50

/-- Per-iteration delay logic of `startPlayback` (371-377): when both
the previous and current timestamps are truthy, compute the delay and,
only when it is strictly greater than 50, log a waiting message and
await it; otherwise neither log nor wait. -/
def stepDelay (speed : ℚ) (prev curr : Option Int) : Option ℚ × Bool :=
  match prev, curr with
  | some a, some b =>
    if a = 0 ∨ b = 0 then (none, false)
    else
      let d := calculateDelay speed (a : ℚ) (b : ℚ)
      if 50 < d then (some d, true) else (none, false)
  | _, _ => (none, false)

/-- One row of the playback run: the delay actually awaited before the
event (none when no wait happened), whether a waiting message was
printed, and the outcome of the event itself. -/
structure StepOut where
  delayApplied : Option ℚ
  waitReported : Bool
  outcome : EventOutcome
  deriving DecidableEq

/-- The `for` loop of `startPlayback` (367-381), threading
`previousTimestamp` (which starts as `null` and is set to the current
timestamp after each event) and the running index. -/
def runLoop (speed : ℚ) (p : Page) : Option Int → Nat → List Interaction → List StepOut
  | _, _, [] => []
  | prev, idx, i :: rest =>
    ⟨(stepDelay speed prev i.timestamp).1, (stepDelay speed prev i.timestamp).2,
      playInteraction p i idx⟩ :: runLoop speed p i.timestamp (idx + 1) rest

/-- Model of `startPlayback` (353-384): throw when no recording is
loaded, then when the browser is not initialized, otherwise run the
loop over `recording.interactions`. -/
def startPlayback (rec : Option Recording) (browserInit : Bool) (speed : ℚ) (p : Page) :
    Except String (List StepOut) :=
  match rec with
  | none => Except.error "No recording loaded. Call loadRecording() first."
  | some r =>
    if browserInit then Except.ok (runLoop speed p none 0 r.interactions)
    else Except.error "Browser not initialized. Call initialize() first."

/-- A console message, tagged by the console channel used. -/
inductive LogMsg where
  | info : String → LogMsg
  | warn : String → LogMsg
  deriving DecidableEq

/-- Whether a console message is a warning. -/
def isWarn : LogMsg → Bool
  | LogMsg.warn _ => true
  | LogMsg.info _ => false

/-- The three `console.log` lines of `loadRecording` (23-25). -/
def loadLogs (r : Recording) : List LogMsg :=
  [ LogMsg.info ("Loaded recording: " ++ r.sessionId),
    LogMsg.info ("Total interactions: " ++ toString r.totalInteractions),
    LogMsg.info "Duration: (formatted startTime - endTime)" ]

/-- Model of `loadRecording` (16-26): throw when the file does not
exist, otherwise store the parsed recording and print three
informational lines; no field of the recording is validated. -/
def loadRecording (fileExists : Bool) (r : Recording) : Except String (Recording × List LogMsg) :=
  if fileExists then Except.ok (r, loadLogs r)
  else Except.error "Recording file not found"

/-- Consecutive timestamp pairs as threaded by the playback loop: the
seed previous timestamp first, then each timestamp paired with its
successor. -/
def pairUp : Option Int → List Interaction → List (Option Int × Option Int)
  | _, [] => []
  | prev, i :: rest => (prev, i.timestamp) :: pairUp i.timestamp rest

/-- Interaction record with the given type and every optional field
absent. -/
def baseRec (ty : String) : Interaction :=
  ⟨ty, none, none, none, none, none, none, none, none, none, none⟩

/-- A live page with no elements at all. -/
def pEmpty : Page := ⟨fun _ => none, fun _ => true, "about:blank"⟩

/-- A small well-formed recording used to instantiate theorems. -/
def rEx : Recording :=
  ⟨"session-1", 100, 200, 2,
    [⟨"click", some 1000, none, some "#a", none, none, none, none, none, none, none⟩,
     ⟨"click", some 1500, none, some "#b", none, none, none, none, none, none, none⟩]⟩

/-- A recording whose declared totalInteractions (5) does not match the
length of its interactions list (2). -/
def rBad : Recording :=
  ⟨"session-2", 100, 200, 5, [baseRec "click", baseRec "click"]⟩

/-- Two navigation-free events 20 ms apart: the computed delay clamps
to the 50 ms floor. -/
def rPair : Recording :=
  ⟨"session-3", 100, 200, 2,
    [⟨"navigation", some 1000, none, none, none, none, none, none, none, none, none⟩,
     ⟨"navigation", some 1020, none, none, none, none, none, none, none, none, none⟩]⟩

/-- Click record with a selector and tagName but no id and no
className. -/
def iC3 : Interaction :=
  ⟨"click", none, none, some "#go", none, none, none, some "DIV", none, none, none⟩

/-- A page on which nothing matches "#go" but an element with the id
"undefined" exists. -/
def pC3 : Page :=
  ⟨fun s => if s = "#undefined" then some ⟨"DIV", false, ""⟩ else none,
   fun _ => true, "about:blank"⟩

/-- Change record targeting a non-select element. -/
def iChangeNonSel : Interaction :=
  ⟨"change", none, none, some "#city", none, none, none, some "INPUT", some "USA", none, none⟩

/-- Change record targeting a select element. -/
def iChangeSel : Interaction :=
  ⟨"change", none, none, some "#dd", none, none, none, some "SELECT", some "USA", none, none⟩

/-- Submit record. -/
def iSubmitRec : Interaction :=
  ⟨"submit", none, none, some "#f", none, none, none, some "FORM", none, none, none⟩

/-- Click record carrying coordinates. -/
def iClickCoord : Interaction :=
  ⟨"click", none, none, some "#go", none, none, none, none, none, none, some (10, 20)⟩

/-- Input record carrying coordinates (which playInput never uses). -/
def iInputCoord : Interaction :=
  ⟨"input", none, none, some "#name", none, none, none, none, some "Ann", none, some (10, 20)⟩

/-- Checkbox record whose desired state is checked. -/
def iCb : Interaction :=
  ⟨"checkbox", none, none, some "#cb", none, none, none, some "INPUT", none, some true, none⟩

/-- A page whose only element is an already-checked checkbox at
"#cb". -/
def pCb : Page :=
  ⟨fun s => if s = "#cb" then some ⟨"INPUT", true, ""⟩ else none,
   fun _ => true, "about:blank"⟩

/-- Input record with an empty recorded value. -/
def iInputEmpty : Interaction :=
  ⟨"input", none, none, some "#name", none, none, none, none, some "", none, none⟩

/-- A page whose only element is a text field at "#name" holding
text. -/
def pIn : Page :=
  ⟨fun s => if s = "#name" then some ⟨"INPUT", false, "old text"⟩ else none,
   fun _ => true, "about:blank"⟩

/-- First candidate selector that the page resolves to an element, if
any: the element the resolver chain settles on. -/
def firstResolve (p : Page) : List String → Option String
  | [] => none
  | s :: rest => if (p.query s).isSome then some s else firstResolve p rest

/-- The playback loop preserves the number of events: one StepOut per
interaction, whatever the page does. -/
theorem runLoop_length (speed : ℚ) (p : Page) :
    ∀ (evs : List Interaction) (prev : Option Int) (idx : Nat),
      (runLoop speed p prev idx evs).length = evs.length := by
  intro evs
  induction evs with
  | nil => intro prev idx; rfl
  | cons i rest ih => intro prev idx; simp [runLoop, ih]

/-- playInteraction labels its outcome with the index it was given. -/
theorem playInteraction_index (p : Page) (i : Interaction) (idx : Nat) :
    (playInteraction p i idx).index = idx := by
  cases hd : dispatch p i <;> simp [playInteraction, hd]

/-- The playback loop visits indices in order. -/
theorem runLoop_indices (speed : ℚ) (p : Page) :
    ∀ (evs : List Interaction) (prev : Option Int) (idx : Nat),
      (runLoop speed p prev idx evs).map (fun s => s.outcome.index) =
        List.range' idx evs.length := by
  intro evs
  induction evs with
  | nil => intro prev idx; rfl
  | cons i rest ih =>
    intro prev idx
    simp [runLoop, List.range', ih, playInteraction_index]

/-- The delay column of the playback loop is exactly stepDelay applied
to consecutive timestamp pairs. -/
theorem runLoop_delays (speed : ℚ) (p : Page) :
    ∀ (evs : List Interaction) (prev : Option Int) (idx : Nat),
      (runLoop speed p prev idx evs).map (fun s => (s.delayApplied, s.waitReported)) =
        (pairUp prev evs).map (fun ab => stepDelay speed ab.1 ab.2) := by
  intro evs
  induction evs with
  | nil => intro prev idx; rfl
  | cons i rest ih =>
    intro prev idx
    simp [runLoop, pairUp, ih]

/-- C2: for all timestamps prev, curr and every speed greater than 0,
calculateDelay returns the maximum of the speed-scaled interval and the
50 ms floor; the result is non-increasing as speed increases, equals
the floor whenever the interval is zero or negative, and for
timestamps 1000 and 1500 at speed 2 equals 250 ms. -/
theorem calculateDelay_spec (prev curr speed : ℚ) (hs : 0 < speed) :
    calculateDelay speed prev curr = max ((curr - prev) / speed) 50
    ∧ (∀ s2, speed ≤ s2 → calculateDelay s2 prev curr ≤ calculateDelay speed prev curr)
    ∧ (curr ≤ prev → calculateDelay speed prev curr = 50)
    ∧ calculateDelay 2 1000 1500 = 250 := by
  refine ⟨rfl, ?_, ?_, ?_⟩
  · intro s2 h2
    unfold calculateDelay
    rcases le_or_lt 0 (curr - prev) with hd | hd
    · have hdiv : (curr - prev) / s2 ≤ (curr - prev) / speed := by gcongr
      exact max_le_max hdiv le_rfl
    · have hs2 : 0 < s2 := lt_of_lt_of_le hs h2
      have h1 : (curr - prev) / s2 ≤ 0 := (div_neg_of_neg_of_pos hd hs2).le
      calc max ((curr - prev) / s2) 50 = 50 := max_eq_right (h1.trans (by norm_num))
        _ ≤ max ((curr - prev) / speed) 50 := le_max_right _ _
  · intro h
    have h1 : (curr - prev) / speed ≤ 0 :=
      div_nonpos_iff.mpr (Or.inr ⟨sub_nonpos.mpr h, hs.le⟩)
    unfold calculateDelay
    exact max_eq_right (h1.trans (by norm_num))
  · unfold calculateDelay
    rw [show ((1500 : ℚ) - 1000) / 2 = 250 by norm_num]
    exact max_eq_left (by norm_num)

/-- Witness for calculateDelay_spec at the concrete scenario of the
spec. -/
theorem calculateDelay_spec_witness : calculateDelay 2 1000 1500 = 250 :=
  (calculateDelay_spec 0 0 1 (by norm_num)).2.2.2

/-- C1: with a recording loaded and the browser initialized,
startPlayback produces exactly one outcome per interaction — every
per-event failure is caught and folded into that event's outcome, so
the attempted count equals the length of the interactions sequence and
the outcomes carry the indices 0..N-1 in order, for every page,
including pages on which dispatch fails. -/
theorem startPlayback_attempts_all (r : Recording) (speed : ℚ) (p : Page) :
    ∃ l, startPlayback (some r) true speed p = Except.ok l
      ∧ l.length = r.interactions.length
      ∧ l.map (fun s => s.outcome.index) = List.range r.interactions.length := by
  refine ⟨runLoop speed p none 0 r.interactions, rfl,
    runLoop_length speed p _ _ _, ?_⟩
  rw [List.range_eq_range']
  exact runLoop_indices speed p r.interactions none 0

/-- Witness for startPlayback_attempts_all at a concrete recording and
page. -/
theorem startPlayback_attempts_all_witness :
    ∃ l, startPlayback (some rEx) true 1 pEmpty = Except.ok l
      ∧ l.length = rEx.interactions.length
      ∧ l.map (fun s => s.outcome.index) = List.range rEx.interactions.length :=
  startPlayback_attempts_all rEx 1 pEmpty

/-- C9: startPlayback fails up front exactly when no recording is
loaded or the browser is not initialized; the missing-recording check
comes first, and when both preconditions hold the run is an ok outcome
covering every event. -/
theorem startPlayback_preconditions (rec : Option Recording) (b : Bool) (speed : ℚ) (p : Page) :
    ((∃ m, startPlayback rec b speed p = Except.error m) ↔ (rec = none ∨ b = false))
    ∧ (rec = none → startPlayback rec b speed p =
        Except.error "No recording loaded. Call loadRecording() first.")
    ∧ (∀ r, rec = some r → b = false → startPlayback rec b speed p =
        Except.error "Browser not initialized. Call initialize() first.")
    ∧ (∀ r, rec = some r → b = true →
        ∃ l, startPlayback rec b speed p = Except.ok l
          ∧ l.length = r.interactions.length) := by
  cases rec with
  | none => cases b <;> simp [startPlayback]
  | some r =>
    cases b with
    | false => simp [startPlayback]
    | true =>
      refine ⟨?_, by simp, by simp, ?_⟩
      · simp [startPlayback]
      · intro r' hr' _
        refine ⟨runLoop speed p none 0 r.interactions, rfl, ?_⟩
        cases hr'
        exact runLoop_length speed p _ _ _

/-- Witness for startPlayback_preconditions: with no recording loaded,
playback aborts with the fatal precondition error. -/
theorem startPlayback_preconditions_witness :
    startPlayback none true 1 pEmpty =
      Except.error "No recording loaded. Call loadRecording() first." :=
  (startPlayback_preconditions none true 1 pEmpty).2.1 rfl

/-- C6 counterexample: loading a recording whose declared
totalInteractions (5) differs from its actual sequence length (2)
produces no warning at all — every message loadRecording prints is
informational, so no mismatch is surfaced. -/
theorem loadRecording_no_warning_cex :
    rBad.totalInteractions ≠ (rBad.interactions.length : Int)
    ∧ loadRecording true rBad = Except.ok (rBad, loadLogs rBad)
    ∧ (loadLogs rBad).filter (fun m => isWarn m) = [] := by
  exact ⟨by decide, rfl, rfl⟩

/-- C6 amended: loadRecording never validates totalInteractions
against the actual length of the interactions sequence and emits no
warning on a mismatch (it only echoes the declared count in an
informational message); playback proceeds over exactly the actual
sequence length. -/
theorem loadRecording_no_validation (r : Recording) (speed : ℚ) (p : Page) :
    loadRecording true r = Except.ok (r, loadLogs r)
    ∧ (loadLogs r).filter (fun m => isWarn m) = []
    ∧ ∃ l, startPlayback (some r) true speed p = Except.ok l
        ∧ l.length = r.interactions.length := by
  exact ⟨rfl, rfl, runLoop speed p none 0 r.interactions, rfl, runLoop_length speed p _ _ _⟩

/-- Witness for loadRecording_no_validation at the mismatched
recording. -/
theorem loadRecording_no_validation_witness :
    loadRecording true rBad = Except.ok (rBad, loadLogs rBad)
    ∧ (loadLogs rBad).filter (fun m => isWarn m) = []
    ∧ ∃ l, startPlayback (some rBad) true 1 pEmpty = Except.ok l
        ∧ l.length = rBad.interactions.length :=
  loadRecording_no_validation rBad 1 pEmpty

/-- C5 counterexample: for two events 20 ms apart the computed delay is
exactly the 50 ms floor, and the controller neither awaits it nor
reports it — no delay at or below the floor is ever applied, while the
claim says such delays are still applied silently. -/
theorem floor_delay_not_applied_cex :
    calculateDelay 1 1000 1020 = 50
    ∧ (startPlayback (some rPair) true 1 pEmpty).toOption.map
        (fun l => l.map (fun s => (s.delayApplied, s.waitReported)))
      = some [(none, false), (none, false)] := by
  constructor
  · unfold calculateDelay
    rw [show ((1020 : ℚ) - 1000) / 1 = 20 by norm_num]
    exact max_eq_right (by norm_num)
  · have h20 : calculateDelay 1 ((1000 : Int) : ℚ) ((1020 : Int) : ℚ) = 50 := by
      unfold calculateDelay
      push_cast
      rw [show ((1020 : ℚ) - 1000) / 1 = 20 by norm_num]
      exact max_eq_right (by norm_num)
    have hsd : stepDelay 1 (some (1000 : Int)) (some (1020 : Int)) = (none, false) := by
      simp only [stepDelay]
      rw [if_neg (by norm_num : ¬((1000 : Int) = 0 ∨ (1020 : Int) = 0))]
      simp only [h20]
      norm_num
    have hmap := runLoop_delays 1 pEmpty rPair.interactions none 0
    show some ((runLoop 1 pEmpty none 0 rPair.interactions).map
        (fun s => (s.delayApplied, s.waitReported))) = some [(none, false), (none, false)]
    rw [hmap]
    show some [stepDelay 1 none (some 1000), stepDelay 1 (some 1000) (some 1020)] =
      some [(none, false), (none, false)]
    rw [hsd]
    rfl

/-- C5 amended: for each index i greater than 0 the controller computes
the scheduler delay from the timestamps of events i-1 and i (when both
are present and nonzero); a delay strictly greater than the 50 ms floor
is applied and reported as a waiting period, while a delay equal to the
floor (the minimum calculateDelay can return) is neither applied nor
reported — the controller dispatches the next event immediately.  No
delay precedes the first event. -/
theorem startPlayback_delay_gating (speed : ℚ) (p : Page) (r : Recording) :
    (∃ l, startPlayback (some r) true speed p = Except.ok l
       ∧ l.map (fun s => (s.delayApplied, s.waitReported)) =
           (pairUp none r.interactions).map (fun ab => stepDelay speed ab.1 ab.2))
    ∧ (∀ t, stepDelay speed none t = (none, false))
    ∧ (∀ a b : Int, a ≠ 0 → b ≠ 0 →
        (calculateDelay speed (a : ℚ) (b : ℚ) = 50 →
          stepDelay speed (some a) (some b) = (none, false))
        ∧ (50 < calculateDelay speed (a : ℚ) (b : ℚ) →
          stepDelay speed (some a) (some b) =
            (some (calculateDelay speed (a : ℚ) (b : ℚ)), true))) := by
  refine ⟨⟨runLoop speed p none 0 r.interactions, rfl,
    runLoop_delays speed p _ _ _⟩, ?_, ?_⟩
  · intro t; cases t <;> rfl
  · intro a b ha hb
    constructor
    · intro h50
      simp only [stepDelay, if_neg (by simp [ha, hb] : ¬(a = 0 ∨ b = 0))]
      rw [if_neg]
      rw [h50]
      norm_num
    · intro hgt
      simp only [stepDelay, if_neg (by simp [ha, hb] : ¬(a = 0 ∨ b = 0))]
      rw [if_pos hgt]

/-- Witness for startPlayback_delay_gating: a 500 ms gap at speed 1 is
applied and reported. -/
theorem startPlayback_delay_gating_witness :
    stepDelay 1 (some 1000) (some 1500) =
      (some (calculateDelay 1 ((1000 : Int) : ℚ) ((1500 : Int) : ℚ)), true) :=
  ((startPlayback_delay_gating 1 pEmpty rEx).2.2 1000 1500 (by decide) (by decide)).2
    (by unfold calculateDelay
        exact lt_max_iff.mpr (Or.inl (by push_cast; norm_num)))

/-- C3 (code defect): when id and className are absent, the template
literals of playClick (146-147) interpolate them as the text
"undefined"; the resulting strings "#undefined" and ".undefined" are
truthy, survive filter(Boolean), and are genuinely attempted — on a
page carrying an element whose id is the text "undefined", the
dispatcher clicks it.  Only the tagName candidate (148, built with
optional chaining, no template literal) becomes undefined and is
skipped when absent. -/
theorem clickSelectors_absent_fields_attempted :
    clickSelectors iC3 = ["#go", "#undefined", ".undefined", "div"]
    ∧ playClick pC3 iC3 = ⟨[Action.clickSel "#undefined"], []⟩ := by
  exact ⟨by decide, rfl⟩

/-- C4 counterexample: on a page where no selector matches anything, a
change event recorded on a non-select element and a submit event both
complete without raising — the dispatcher treats them as handled (the
source even logs a success message), contrary to the recoverable
errors the claim requires. -/
theorem change_submit_silent_cex :
    playChange pEmpty iChangeNonSel = Except.ok ⟨[], []⟩
    ∧ playSubmit pEmpty iSubmitRec = Except.ok ⟨[], []⟩ := by
  exact ⟨rfl, rfl⟩

/-- A string starting with a hash mark is never empty. -/
theorem hash_append_ne_empty (x : String) : "#" ++ x ≠ "" := by
  intro h
  have hlen := congrArg String.length h
  rw [String.length_append, show "#".length = 1 from rfl, show "".length = 0 from rfl] at hlen
  omega

/-- The candidate list of playInput, playChange and playCheckbox is
never empty: the id-interpolating entry always survives
filter(Boolean). -/
theorem fieldSelectors_ne_nil (i : Interaction) : fieldSelectors i ≠ [] := by
  have hmem : ("#" ++ jsStr i.id) ∈ fieldSelectors i := by
    unfold fieldSelectors filterBoolean
    refine List.mem_filterMap.mpr ⟨some ("#" ++ jsStr i.id), by simp, ?_⟩
    simp [hash_append_ne_empty]
  exact List.ne_nil_of_mem hmem

/-- On the SELECT path, every candidate whose element is missing or is
not a live select element makes page.select throw, so the loop
exhausts all candidates. -/
theorem tryChange_select_fail (p : Page) (i : Interaction) (hsel : i.tagName = some "SELECT") :
    ∀ l, (∀ s, s ∈ l → ∀ e, p.query s = some e → e.tagName ≠ "SELECT") →
      tryChangeCandidates p i l = none := by
  intro l
  induction l with
  | nil => intro _; rfl
  | cons s0 rest ih =>
    intro h
    cases hq : p.query s0 with
    | none =>
      simp only [tryChangeCandidates, if_pos hsel, hq]
      exact ih fun s' hs' => h s' (List.mem_cons_of_mem _ hs')
    | some e0 =>
      have hne := h s0 (List.mem_cons_self s0 rest) e0 hq
      simp only [tryChangeCandidates, if_pos hsel, hq, if_neg hne]
      exact ih fun s' hs' => h s' (List.mem_cons_of_mem _ hs')

/-- C4 amended: a change/select-one event whose record carries tagName
SELECT raises a recoverable error when no candidate selector resolves
to a live select element; a change/select-one event with any other
tagName is treated as handled even when its target cannot be resolved,
and a submit event is always treated as handled — it performs a
submission only when the record selector matches a form element, and
silently does nothing otherwise. -/
theorem change_submit_amended (p : Page) (i : Interaction) :
    (i.tagName = some "SELECT" →
      (∀ s, s ∈ fieldSelectors i → ∀ e, p.query s = some e → e.tagName ≠ "SELECT") →
      playChange p i = Except.error ("Could not change element: " ++ jsStr i.selector))
    ∧ (i.tagName ≠ some "SELECT" → ∃ out, playChange p i = Except.ok out)
    ∧ (∃ out, playSubmit p i = Except.ok out
        ∧ (out.actions ≠ [] →
            ∃ e, p.query (jsStr i.selector) = some e ∧ e.tagName = "FORM")) := by
  refine ⟨?_, ?_, ?_⟩
  · intro hsel h
    unfold playChange
    rw [tryChange_select_fail p i hsel _ h]
  · intro hne
    cases hl : fieldSelectors i with
    | nil => exact absurd hl (fieldSelectors_ne_nil i)
    | cons s0 rest =>
      refine ⟨⟨(if (p.query s0).isSome
        then [Action.setValueDispatchChange s0 (jsStr i.value)] else []), []⟩, ?_⟩
      unfold playChange
      rw [hl]
      simp only [tryChangeCandidates, if_neg hne]
  · cases hq : p.query (jsStr i.selector) with
    | none =>
      refine ⟨⟨[], []⟩, by simp [playSubmit, hq], fun h => absurd rfl h⟩
    | some e =>
      by_cases hf : e.tagName = "FORM"
      · exact ⟨⟨[Action.submitForm (jsStr i.selector)], []⟩,
          by simp [playSubmit, hq, hf], fun _ => ⟨e, rfl, hf⟩⟩
      · exact ⟨⟨[], []⟩, by simp [playSubmit, hq, hf], fun h => absurd rfl h⟩

/-- Witness for change_submit_amended: a SELECT-tagged change event on
an element-free page errors, and a submit on the same page is silently
handled. -/
theorem change_submit_amended_witness :
    playChange pEmpty iChangeSel =
      Except.error ("Could not change element: " ++ jsStr iChangeSel.selector)
    ∧ ∃ out, playSubmit pEmpty iSubmitRec = Except.ok out
        ∧ (out.actions ≠ [] →
            ∃ e, pEmpty.query (jsStr iSubmitRec.selector) = some e ∧ e.tagName = "FORM") :=
  ⟨(change_submit_amended pEmpty iChangeSel).1 rfl
      (fun _ _ _ he => Option.noConfusion he),
   (change_submit_amended pEmpty iSubmitRec).2.2⟩

/-- When no candidate selector matches any element, the click loop
falls through all candidates. -/
theorem tryClick_none_of_unresolved (p : Page) :
    ∀ l, (∀ s, s ∈ l → p.query s = none) → tryClickCandidates p l = none := by
  intro l
  induction l with
  | nil => intro _; rfl
  | cons s0 rest ih =>
    intro h
    simp only [tryClickCandidates, h s0 (List.mem_cons_self s0 rest)]
    exact ih fun s' hs' => h s' (List.mem_cons_of_mem _ hs')

/-- When no candidate selector matches any element, the typing loop
falls through all candidates. -/
theorem tryInput_none_of_unresolved (p : Page) (v : Option String) :
    ∀ l, (∀ s, s ∈ l → p.query s = none) → tryInputCandidates p v l = none := by
  intro l
  induction l with
  | nil => intro _; rfl
  | cons s0 rest ih =>
    intro h
    simp only [tryInputCandidates, h s0 (List.mem_cons_self s0 rest)]
    exact ih fun s' hs' => h s' (List.mem_cons_of_mem _ hs')

/-- C7: a click event with no resolving candidate but coordinates on
record falls back to a mouse click at those coordinates, while an
input/text/search event with no resolving candidate is reported as a
logged skip — there is no coordinate fallback on the typing path, no
matter what coordinates the record carries. -/
theorem click_fallback_input_skip (p : Page) (i : Interaction) :
    ((∀ s, s ∈ clickSelectors i → p.query s = none) →
      ∀ x y, i.coordinates = some (x, y) →
        playClick p i = ⟨[Action.clickCoord x y], []⟩)
    ∧ ((∀ s, s ∈ fieldSelectors i → p.query s = none) →
      playInput p i = ⟨[], ["Could not type in element: " ++ jsStr i.selector]⟩) := by
  constructor
  · intro h x y hc
    unfold playClick
    rw [tryClick_none_of_unresolved p _ h, hc]
  · intro h
    unfold playInput
    rw [tryInput_none_of_unresolved p i.value _ h]

/-- Witness for click_fallback_input_skip on an element-free page: the
click lands at (10, 20); the input event, though it carries the same
coordinates, is reported as a skip. -/
theorem click_fallback_input_skip_witness :
    playClick pEmpty iClickCoord = ⟨[Action.clickCoord 10 20], []⟩
    ∧ playInput pEmpty iInputCoord =
        ⟨[], ["Could not type in element: " ++ jsStr iInputCoord.selector]⟩ :=
  ⟨(click_fallback_input_skip pEmpty iClickCoord).1 (fun _ _ => rfl) 10 20 rfl,
   (click_fallback_input_skip pEmpty iInputCoord).2 (fun _ _ => rfl)⟩

/-- When the first resolving candidate holds an element whose checked
state already matches the desired one, the checkbox loop stops there
with no click. -/
theorem tryCheckbox_first_match (p : Page) (want : Bool) :
    ∀ (l : List String) (s : String) (e : Elem), firstResolve p l = some s →
      p.query s = some e → e.checked = want → tryCheckboxCandidates p want l = some [] := by
  intro l
  induction l with
  | nil =>
    intro s e hf
    exact absurd hf (by simp [firstResolve])
  | cons s0 rest ih =>
    intro s e hf hq hc
    by_cases h0 : (p.query s0).isSome
    · rw [firstResolve, if_pos h0] at hf
      obtain rfl : s0 = s := Option.some.inj hf
      simp only [tryCheckboxCandidates, hq]
      rw [if_pos hc]
    · rw [firstResolve, if_neg h0] at hf
      have hq0 : p.query s0 = none := Option.not_isSome_iff_eq_none.mp h0
      simp only [tryCheckboxCandidates, hq0]
      exact ih s e hf hq hc

/-- Every click the checkbox loop emits targets a selector whose
element's checked state differs from the desired one. -/
theorem tryCheckbox_click_only_if_differs (p : Page) (want : Bool) :
    ∀ (l : List String) (acts : List Action) (s : String),
      tryCheckboxCandidates p want l = some acts → Action.clickSel s ∈ acts →
      ∃ e, p.query s = some e ∧ e.checked ≠ want := by
  intro l
  induction l with
  | nil => intro acts s h _; exact Option.noConfusion h
  | cons s0 rest ih =>
    intro acts s h hm
    cases hq : p.query s0 with
    | none =>
      simp only [tryCheckboxCandidates, hq] at h
      exact ih acts s h hm
    | some e0 =>
      simp only [tryCheckboxCandidates, hq] at h
      by_cases hc : e0.checked = want
      · rw [if_pos hc] at h
        cases h
        exact absurd hm (List.not_mem_nil _)
      · rw [if_neg hc] at h
        cases ha : p.actOk s0 with
        | true =>
          rw [if_pos (by rw [ha])] at h
          cases h
          have hss : s = s0 := by
            have := List.mem_singleton.mp hm
            injection this
          subst hss
          exact ⟨e0, hq, hc⟩
        | false =>
          rw [if_neg (by rw [ha]; exact Bool.false_ne_true)] at h
          exact ih acts s h hm

/-- C8: for every checkbox event whose target resolves, the dispatcher
compares the element's current checked state to the desired state
(record.checked or value equal to the string "true") and clicks only
if they differ: a matching state yields zero clicks, and any click it
does perform targets an element whose state differed. -/
theorem playCheckbox_toggle_iff_differs (p : Page) (i : Interaction) :
    (∀ s e, firstResolve p (fieldSelectors i) = some s → p.query s = some e →
      e.checked = shouldBeChecked i → playCheckbox p i = Except.ok ⟨[], []⟩)
    ∧ (∀ out s, playCheckbox p i = Except.ok out → Action.clickSel s ∈ out.actions →
      ∃ e, p.query s = some e ∧ e.checked ≠ shouldBeChecked i) := by
  constructor
  · intro s e hf hq hc
    unfold playCheckbox
    rw [tryCheckbox_first_match p (shouldBeChecked i) _ s e hf hq hc]
  · intro out s h hm
    unfold playCheckbox at h
    cases ht : tryCheckboxCandidates p (shouldBeChecked i) (fieldSelectors i) with
    | none => rw [ht] at h; exact Except.noConfusion h
    | some acts =>
      rw [ht] at h
      cases h
      exact tryCheckbox_click_only_if_differs p _ _ acts s ht hm

/-- Witness for playCheckbox_toggle_iff_differs: replaying a checked
checkbox event against an already-checked checkbox performs zero
clicks. -/
theorem playCheckbox_toggle_iff_differs_witness :
    playCheckbox pCb iCb = Except.ok ⟨[], []⟩ :=
  (playCheckbox_toggle_iff_differs pCb iCb).1 "#cb" ⟨"INPUT", true, ""⟩ rfl rfl rfl

/-- The typing loop settles on the first resolving candidate when the
browser-level calls against it succeed: focus, select-all, delete,
then the typing step. -/
theorem tryInput_first_match (p : Page) (v : Option String) :
    ∀ (l : List String) (s : String), firstResolve p l = some s → p.actOk s = true →
      tryInputCandidates p v l =
        some ([Action.focus s, Action.keySelectAll, Action.keyBackspace] ++ typeActions s v) := by
  intro l
  induction l with
  | nil =>
    intro s hf
    exact absurd hf (by simp [firstResolve])
  | cons s0 rest ih =>
    intro s hf ha
    by_cases h0 : (p.query s0).isSome
    · rw [firstResolve, if_pos h0] at hf
      obtain rfl : s0 = s := Option.some.inj hf
      obtain ⟨e0, he0⟩ := Option.isSome_iff_exists.mp h0
      simp only [tryInputCandidates, he0]
      rw [if_pos (by rw [ha])]
    · rw [firstResolve, if_neg h0] at hf
      have hq0 : p.query s0 = none := Option.not_isSome_iff_eq_none.mp h0
      simp only [tryInputCandidates, hq0]
      exact ih s hf ha

/-- C10: an input/text/search event whose target resolves but whose
recorded value is absent or empty still focuses the element and clears
its content (select-all plus delete), types nothing, and is treated as
handled with no skip reported — replaying it erases whatever the field
currently holds. -/
theorem playInput_empty_value_clears (p : Page) (i : Interaction) (s : String)
    (hf : firstResolve p (fieldSelectors i) = some s) (ha : p.actOk s = true)
    (hv : i.value = none ∨ i.value = some "") :
    playInput p i = ⟨[Action.focus s, Action.keySelectAll, Action.keyBackspace], []⟩ := by
  unfold playInput
  rw [tryInput_first_match p i.value _ s hf ha]
  have ht : typeActions s i.value = [] := by
    rcases hv with h | h <;> simp [typeActions, h]
  rw [ht]
  rfl

/-- Witness for playInput_empty_value_clears: an empty-valued input
event against a field holding text clears it and reports no skip. -/
theorem playInput_empty_value_clears_witness :
    playInput pIn iInputEmpty =
      ⟨[Action.focus "#name", Action.keySelectAll, Action.keyBackspace], []⟩ :=
  playInput_empty_value_clears pIn iInputEmpty "#name" rfl rfl (Or.inr rfl)

end Playback
